import Mathlib

/-
  Verification of the fastboot board-driver core of lava-dispatcher
  (src/lava_dispatcher/device/fastboot_drivers.py and
   src/lava_dispatcher/actions/boot_control.py), as a shallow embedding.

  Side effects (shell commands, sleeps, logging, downloads, ramdisk
  surgery) are recorded as an event trace; Python exceptions are an
  explicit error type.  External collaborators that live outside src/
  (context.run_command, download_image, extract_ramdisk, extract_modules,
  create_ramdisk, mkdtemp, subprocess.check_call) are modelled from the
  spec's collaborator contracts through an environment oracle `Env` that
  fixes their observable outcome per input.
-/

namespace LavaFastboot

/-- One observable side effect of the driver code. -/
inductive Event where
  | runCommand (cmd : String) (failok : Bool)
  | checkCall (args : List String)
  | sleepSec (n : Nat)
  | downloadImage (url : String) (dir : Option String) (decompress : Bool)
  | extractRamdiskEv (path : String) (dir : Option String)
  | extractModulesEv (path : String) (dir : String)
  | createRamdiskEv (dir : String) (workDir : Option String)
  | mkdtempEv (base : String)
  | logDebug (msg : String)
  | logInfo (msg : String)
  | logCritical (msg : String)
  | logException (msg : String)
deriving DecidableEq

/-- The Python exception kinds raised by this code (all subclasses of
`Exception`; `KeyboardInterrupt`-style signals are outside the model). -/
inductive Err where
  | critical (msg : String)
  | calledProcessError
  | adbConnectError
  | keyError
  | notImplementedError (msg : String)
  | other (msg : String)
deriving DecidableEq

/-- Computation that may raise, and that records an event trace.  The
trace lists the effects performed before returning or raising. -/
def M (α : Type) : Type := Except Err α × List Event

instance : Monad M where
  pure a := (Except.ok a, [])
  bind x f :=
    match x with
    | (Except.error e, tr) => (Except.error e, tr)
    | (Except.ok a, tr) =>
      match f a with
      | (r, tr2) => (r, tr ++ tr2)

/-- Python try/except: run `x`; if it raises an error satisfying `p`,
run the handler (effects of `x` before the raise are kept). -/
def M.tryCatchWith {α : Type} (x : M α) (p : Err → Bool) (handler : Err → M α) : M α :=
  match x with
  | (Except.ok a, tr) => (Except.ok a, tr)
  | (Except.error e, tr) =>
    if p e then
      match handler e with
      | (r, tr2) => (r, tr ++ tr2)
    else (Except.error e, tr)

def M.throw {α : Type} (e : Err) : M α := (Except.error e, [])

def emit (ev : Event) : M Unit := (Except.ok (), [ev])

/-- Python `'%s' % x` where `x` may be `None`. -/
def pyStr : Option String → String
  | none => "None"
  | some s => s

/-- Python truthiness of an optional string config value
(`None` and the empty string are falsy); returns the value when truthy. -/
def optTruthy : Option String → Option String
  | none => none
  | some s => if s = "" then none else some s

/-- Outcome oracle for the external collaborators: which shell commands
succeed, what local path a download lands at, where ramdisk extraction /
repacking / temp-dir creation land. -/
structure Env where
  runOk : String → Bool
  checkOk : List String → Bool
  download : String → String
  extractDir : String → String
  repackPath : String → String
  mkdtempDir : String → String

/-- Modelled from the spec: the Command Runner collaborator
(`context.run_command`, not under src/): executes a shell command,
recording it, and raises an external-command failure
(`CalledProcessError`) when the command fails and failure tolerance
(`failok`) was not requested. -/
def run_command (env : Env) (cmd : String) (failok : Bool) : M Unit :=
  (if failok || env.runOk cmd then Except.ok () else Except.error Err.calledProcessError,
   [Event.runCommand cmd failok])

/-- Modelled from the spec: `subprocess.check_call` (standard library):
runs the argument vector, raising `CalledProcessError` on a non-zero exit. -/
def check_call (env : Env) (args : List String) : M Unit :=
  (if env.checkOk args then Except.ok () else Except.error Err.calledProcessError,
   [Event.checkCall args])

/-- Modelled from the spec: the Download service collaborator
(`download_image`, not under src/): `fetch(url, destinationDir,
decompress) -> localPath`; the local path is given by the oracle. -/
def download_image (env : Env) (url : String) (dir : Option String) (decompress : Bool) : M String :=
  (Except.ok (env.download url), [Event.downloadImage url dir decompress])

/-- Modelled from the spec: the Ramdisk service collaborator
(`extract_ramdisk`, not under src/): `extract(ramdiskPath, workDir) ->
extractedDir`. -/
def extract_ramdisk (env : Env) (path : String) (dir : Option String) : M String :=
  (Except.ok (env.extractDir path), [Event.extractRamdiskEv path dir])

/-- Modelled from the spec: the Ramdisk service collaborator
(`extract_modules`, not under src/): `injectModules(modulesPath,
extractedDir)`. -/
def extract_modules (env : Env) (path : String) (dir : String) : M Unit :=
  (Except.ok (), [Event.extractModulesEv path dir])

/-- Modelled from the spec: the Ramdisk service collaborator
(`create_ramdisk`, not under src/): `repack(extractedDir, workDir) ->
newRamdiskPath`. -/
def create_ramdisk (env : Env) (dir : String) (workDir : Option String) : M String :=
  (Except.ok (env.repackPath dir), [Event.createRamdiskEv dir workDir])

/-- Modelled from the spec: `mkdtemp` (utils helper, not under src/):
creates a fresh directory under the given base. -/
def mkdtemp (env : Env) (base : String) : M String :=
  (Except.ok (env.mkdtempDir base), [Event.mkdtempEv base])

/-- Per-device configuration record consumed by the drivers
(`device.config` fields referenced by fastboot_drivers.py). -/
structure Config where
  fastboot_command : String
  adb_command : String
  soft_boot_cmd : String
  hard_reset_command : Option String
  fastboot_kernel_load_addr : Option String
  rootfs_partition : String
  connection_command : Option String
  shared_working_directory : Option String
  data_part_android_org : String
  sys_part_android_org : String

/-- `'timeout -s SIGKILL ' + str(timeout) + 's ' + cmd` (from `_call`). -/
def timeoutWrap (t : Nat) (cmd : String) : String :=
  "timeout -s SIGKILL " ++ toString t ++ "s " ++ cmd

/-- `"flock /var/lock/lava-fastboot.lck " + command` (from `FastBoot.__call__`). -/
def lockWrap (cmd : String) : String :=
  "flock /var/lock/lava-fastboot.lck " ++ cmd

/-- The full locked fastboot command line for argument string `args`. -/
def fbCmd (cfg : Config) (args : String) : String :=
  lockWrap (cfg.fastboot_command ++ " " ++ args)

/-- `self.config.adb_command + ' ' + args` (from `BaseDriver.adb`). -/
def adbCmdStr (cfg : Config) (args : String) : String :=
  cfg.adb_command ++ " " ++ args

/-- `_call(context, cmd, ignore_failure, timeout)`. -/
def _call (env : Env) (cmd : String) (ignore_failure : Bool) (timeout : Nat) : M Unit :=
  run_command env (timeoutWrap timeout cmd) ignore_failure

/-- `BaseDriver.adb` without `spawn` (the synchronous branch); Python
defaults are `ignore_failure=False, timeout=600`, written explicitly at
every call site of the embedding. -/
def adb_call (env : Env) (cfg : Config) (args : String) (ignore_failure : Bool) (timeout : Nat) : M Unit :=
  _call env (adbCmdStr cfg args) ignore_failure timeout

namespace FastBoot

/-- `FastBoot.__call__(args, ignore_failure=False, timeout=600)`. -/
def call (env : Env) (cfg : Config) (args : String) (ignore_failure : Bool) (timeout : Nat) : M Unit :=
  _call env (fbCmd cfg args) ignore_failure timeout

/-- `FastBoot.enter`: gentle reset through the device's adb soft-boot
command; on `CalledProcessError` fall back to the configured hard reset
command, or log a critical message when none is configured. -/
def enter (env : Env) (cfg : Config) : M Unit :=
  M.tryCatchWith (adb_call env cfg cfg.soft_boot_cmd false 600)
    (fun e => match e with
      | Err.calledProcessError => true
      | _ => false)
    (fun _ =>
      match optTruthy cfg.hard_reset_command with
      | some h => do
          emit (Event.logDebug "Will hard reset the device")
          run_command env h false
      | none =>
          emit (Event.logCritical "Hard reset command not configured. Please reset the device manually."))

/-- `FastBoot.on`: settle 10s then issue a short (2s) liveness probe;
returns `false` instead of raising on probe failure. -/
def on' (env : Env) (cfg : Config) : M Bool :=
  M.tryCatchWith
    (do
      emit (Event.logInfo "Waiting for 10 seconds for connection to settle")
      emit (Event.sleepSec 10)
      call env cfg "getvar all" false 2
      pure true)
    (fun e => match e with
      | Err.calledProcessError => true
      | _ => false)
    (fun _ => pure false)

/-- `FastBoot.erase(partition)`. -/
def erase (env : Env) (cfg : Config) (partition : String) : M Unit :=
  call env cfg ("erase " ++ partition) false 600

/-- `FastBoot.flash(partition, image)`. -/
def flash (env : Env) (cfg : Config) (partition : String) (image : String) : M Unit :=
  call env cfg ("flash " ++ partition ++ " " ++ image) false 600

/-- `FastBoot.boot(image)`: bootloader reboot, 10s settle, then boot. -/
def bootImg (env : Env) (cfg : Config) (image : String) : M Unit := do
  call env cfg "reboot" false 600
  emit (Event.sleepSec 10)
  call env cfg ("boot " ++ image) false 600

end FastBoot

/-- Mutable per-run state of a `BaseDriver` instance
(`target_type`, `scratch_dir`, `_default_boot_cmds`, `_kernel`,
`_ramdisk`, `_working_dir`, `__boot_image__`). -/
structure DriverState where
  target_type : Option String
  scratch_dir : Option String
  default_boot_cmds : String
  kernel : Option String
  ramdisk : Option String
  working_dir_cache : Option String
  boot_image : Option String
deriving DecidableEq

/-- The state set up by `BaseDriver.__init__`. -/
def initState : DriverState :=
  { target_type := none
    scratch_dir := none
    default_boot_cmds := "boot_cmds_ramdisk"
    kernel := none
    ramdisk := none
    working_dir_cache := none
    boot_image := none }

/-- Driver method: threads the mutable driver state through `M`.
On a raise, the state mutations performed before the raise persist. -/
def DM (α : Type) : Type := DriverState → Except Err α × DriverState × List Event

instance : Monad DM where
  pure a := fun s => (Except.ok a, s, [])
  bind x f := fun s =>
    match x s with
    | (Except.error e, s1, tr) => (Except.error e, s1, tr)
    | (Except.ok a, s1, tr) =>
      match f a s1 with
      | (r, s2, tr2) => (r, s2, tr ++ tr2)

def liftE {α : Type} (x : M α) : DM α := fun s => (x.1, s, x.2)

def getS : DM DriverState := fun s => (Except.ok s, s, [])

def modifyS (f : DriverState → DriverState) : DM Unit := fun s => (Except.ok (), f s, [])

def DM.throw {α : Type} (e : Err) : DM α := fun s => (Except.error e, s, [])

/-- The board-driver classes of fastboot_drivers.py.  `base` is
`BaseDriver`; `fastboot` and `fastboot_serial` are its direct
subclasses; `nexus10` extends `fastboot`; `capri`, `pxa1928dkb` and
`k3v2` extend `fastboot_serial`. -/
inductive Board where
  | base
  | fastboot
  | nexus10
  | fastboot_serial
  | capri
  | pxa1928dkb
  | k3v2
deriving DecidableEq

/-- `BaseDriver.working_dir` property: the scratch dir unless a shared
working directory is configured, in which case a temp dir is created
once and cached in `_working_dir`. -/
def working_dir (env : Env) (cfg : Config) : DM (Option String) :=
  match cfg.shared_working_directory with
  | none => do
      let s ← getS
      pure s.scratch_dir
  | some w =>
      if w.trim = "" then do
        let s ← getS
        pure s.scratch_dir
      else do
        let s ← getS
        match s.working_dir_cache with
        | some d => pure (some d)
        | none => do
            let d ← liftE (mkdtemp env w)
            modifyS (fun s0 => { s0 with working_dir_cache := some d })
            pure (some d)

/-- `BaseDriver._get_image(url)`: download (with decompression) into the
working directory. -/
def _get_image (env : Env) (cfg : Config) (url : String) : DM String := do
  let sdir ← working_dir env cfg
  liftE (download_image env url sdir true)

/-- `BaseDriver._get_partition_mount_point(partition)`: the dict literal
maps `data_part_android_org` to `/data` and `sys_part_android_org` to
`/system`; a later duplicate key wins in a Python dict literal, so the
`sys` entry is checked first; any other partition is a `KeyError`. -/
def _get_partition_mount_point (cfg : Config) (partition : String) : Except Err String :=
  if partition = cfg.sys_part_android_org then Except.ok "/system"
  else if partition = cfg.data_part_android_org then Except.ok "/data"
  else Except.error Err.keyError

/-- `BaseDriver.adb` (synchronous branch) as a driver method. -/
def driver_adb (env : Env) (cfg : Config) (args : String) (ignore_failure : Bool) (timeout : Nat) : DM Unit :=
  liftE (adb_call env cfg args ignore_failure timeout)

/-- `BaseDriver.erase_boot` with the subclass overrides: `capri` and
`pxa1928dkb` make it a no-op; everyone else erases the `boot`
partition through the Flasher Client. -/
def erase_boot (b : Board) (env : Env) (cfg : Config) : DM Unit :=
  match b with
  | Board.capri => pure ()
  | Board.pxa1928dkb => pure ()
  | _ => liftE (FastBoot.erase env cfg "boot")

/-- The kernel-path boot argument string
`'boot -c "%s" -b %s %s %s' % (boot_cmds, addr, kernel, ramdisk)`. -/
def kernelBootArgsR (boot_cmds : Option String) (addr k r : String) : String :=
  "boot -c \"" ++ pyStr boot_cmds ++ "\" -b " ++ addr ++ " " ++ k ++ " " ++ r

/-- The ramdisk-less kernel boot argument string
`'boot -c "%s" -b %s %s' % (boot_cmds, addr, kernel)`. -/
def kernelBootArgsK (boot_cmds : Option String) (addr k : String) : String :=
  "boot -c \"" ++ pyStr boot_cmds ++ "\" -b " ++ addr ++ " " ++ k

/-- `BaseDriver.boot(boot_cmds)`: fail fast when no deploy has set
`__boot_image__`; with a kernel artifact, boot through the kernel path
(fatal without a configured load address); otherwise boot the flashed
image through the Flasher Client. -/
def base_boot (env : Env) (cfg : Config) (boot_cmds : Option String) : DM Unit := do
  let s ← getS
  match s.boot_image with
  | none => DM.throw (Err.critical "Deploy action must be run first")
  | some img =>
    match s.kernel with
    | some k =>
      match s.ramdisk with
      | some r =>
        match optTruthy cfg.fastboot_kernel_load_addr with
        | some addr => liftE (FastBoot.call env cfg (kernelBootArgsR boot_cmds addr k r) false 600)
        | none => DM.throw (Err.critical "Kernel load address not defined!")
      | none =>
        match optTruthy cfg.fastboot_kernel_load_addr with
        | some addr => liftE (FastBoot.call env cfg (kernelBootArgsK boot_cmds addr k) false 600)
        | none => DM.throw (Err.critical "Kernel load address not defined!")
    | none => liftE (FastBoot.bootImg env cfg img)

/-- The overriding `boot` of `nexus10`, `capri`, `pxa1928dkb` and
`k3v2`: flash `__boot_image__` (Python string-formats `None` when it was
never set) to the `boot` partition, then `fastboot reboot`. -/
def variant_boot_flash (env : Env) (cfg : Config) : DM Unit := do
  let s ← getS
  liftE (FastBoot.flash env cfg "boot" (pyStr s.boot_image))
  liftE (FastBoot.call env cfg "reboot" false 600)

/-- `boot` with dynamic dispatch over the class hierarchy;
`pxa1928dkb.boot` additionally waits for the debug bridge when the
target type is android. -/
def boot (b : Board) (env : Env) (cfg : Config) (boot_cmds : Option String) : DM Unit :=
  match b with
  | Board.nexus10 => variant_boot_flash env cfg
  | Board.capri => variant_boot_flash env cfg
  | Board.k3v2 => variant_boot_flash env cfg
  | Board.pxa1928dkb => do
      variant_boot_flash env cfg
      let s ← getS
      if s.target_type = some "android" then driver_adb env cfg "wait-for-device" false 600
      else pure ()
  | _ => base_boot env cfg boot_cmds

/-- The argument record of `deploy_linaro_kernel` (the fields past
`modules`/`rootfs` are accepted and ignored by the source). -/
structure KernelDeployArgs where
  kernel : Option String
  ramdisk : Option String
  dtb : Option String
  modules : Option String
  rootfs : Option String
  nfsrootfs : Option String
  bootloader : Option String
  firmware : Option String
  bl1 : Option String
  bl2 : Option String
  bl31 : Option String
  rootfstype : Option String
  bootloadertype : Option String
  target_type : String
  scratch_dir : String

/-- `BaseDriver.deploy_linaro_kernel`: requires a kernel; downloads it;
with a ramdisk also given, downloads it, and with modules additionally
given, downloads the modules (into the raw `_working_dir` field),
extracts the ramdisk, injects the modules and repacks, replacing
`_ramdisk`; with a rootfs, switches the default boot-command profile
and flashes the rootfs partition; finally sets the boot target to the
kernel path. -/
def base_deploy_linaro_kernel (env : Env) (cfg : Config) (a : KernelDeployArgs) : DM Unit := do
  modifyS (fun s => { s with target_type := some a.target_type, scratch_dir := some a.scratch_dir })
  match a.kernel with
  | none => DM.throw (Err.critical "A kernel image is required!")
  | some kUrl => do
    let kp ← _get_image env cfg kUrl
    modifyS (fun s => { s with kernel := some kp })
    match a.ramdisk with
    | some rUrl => do
        let rp ← _get_image env cfg rUrl
        modifyS (fun s => { s with ramdisk := some rp })
        match a.modules with
        | some mUrl => do
            let s1 ← getS
            let mp ← liftE (download_image env mUrl s1.working_dir_cache false)
            let s2 ← getS
            let wd ← working_dir env cfg
            let rdir ← liftE (extract_ramdisk env (pyStr s2.ramdisk) wd)
            liftE (extract_modules env mp rdir)
            let s3 ← getS
            let newR ← liftE (create_ramdisk env rdir s3.working_dir_cache)
            modifyS (fun s0 => { s0 with ramdisk := some newR })
        | none => pure ()
    | none => pure ()
    match a.rootfs with
    | some roUrl => do
        modifyS (fun s0 => { s0 with default_boot_cmds := "boot_cmds_rootfs" })
        let rop ← _get_image env cfg roUrl
        liftE (FastBoot.flash env cfg cfg.rootfs_partition rop)
    | none => pure ()
    modifyS (fun s0 => { s0 with boot_image := some "kernel" })

/-- `deploy_linaro_kernel` with dynamic dispatch: `fastboot`,
`nexus10`, `capri`, `pxa1928dkb` and `k3v2` override it to reject
kernel deployment outright. -/
def deploy_linaro_kernel (b : Board) (env : Env) (cfg : Config) (a : KernelDeployArgs) : DM Unit :=
  match b with
  | Board.base => base_deploy_linaro_kernel env cfg a
  | Board.fastboot_serial => base_deploy_linaro_kernel env cfg a
  | _ => DM.throw (Err.critical "This platform does not support kernel deployment!")

/-- `BaseDriver.deploy_android` (no subclass overrides it, but the
`erase_boot` it calls is dispatched): erase the boot partition, require
and download the boot image, flash system and userdata when given, and
set the boot target to the downloaded boot image. -/
def deploy_android (b : Board) (env : Env) (cfg : Config)
    (boot_img system userdata rootfstype bootloadertype : Option String)
    (target_type scratch_dir : String) : DM Unit := do
  modifyS (fun s => { s with target_type := some target_type, scratch_dir := some scratch_dir })
  erase_boot b env cfg
  match boot_img with
  | none => DM.throw (Err.critical "A boot image is required!")
  | some bUrl => do
    let bp ← _get_image env cfg bUrl
    match system with
    | some sysUrl => do
        let sp ← _get_image env cfg sysUrl
        liftE (FastBoot.flash env cfg "system" sp)
    | none => pure ()
    match userdata with
    | some uUrl => do
        let up ← _get_image env cfg uUrl
        liftE (FastBoot.flash env cfg "userdata" up)
    | none => pure ()
    modifyS (fun s0 => { s0 with boot_image := some bp })

/-- `enter_fastboot` with dynamic dispatch: the base class leaves it
abstract; `k3v2` sleeps 10s after entering for the first-stage
bootloaders to initialize. -/
def enter_fastboot (b : Board) (env : Env) (cfg : Config) : DM Unit :=
  match b with
  | Board.base => DM.throw (Err.notImplementedError "enter_fastboot")
  | Board.k3v2 => do
      liftE (FastBoot.enter env cfg)
      liftE (emit (Event.sleepSec 10))
  | _ => liftE (FastBoot.enter env cfg)

/-- `BaseDriver.adb_file_system(partition, directory)` as a
higher-order function over the with-block body: resolve the mount
point, build the staging directory, `mkdir -p` it, pull (tolerating
failure: the remote path may not exist yet), run the body on the
staging path, and push back.  The generator has no try/finally around
its yield, so when the body raises, the push line is never reached. -/
def adb_file_system {α : Type} (env : Env) (cfg : Config) (partition directory : String)
    (body : String → DM α) : DM α :=
  match _get_partition_mount_point cfg partition with
  | Except.error e => DM.throw e
  | Except.ok mount_point => do
    let wd ← working_dir env cfg
    let host_dir := pyStr wd ++ "/mnt/" ++ directory
    let target_dir := mount_point ++ "/" ++ directory
    liftE (check_call env ["mkdir", "-p", host_dir])
    driver_adb env cfg ("pull " ++ target_dir ++ " " ++ host_dir) true 600
    let a ← body host_dir
    driver_adb env cfg ("push " ++ host_dir ++ " " ++ target_dir) false 600
    pure a

/-- `cmd_boot_linaro_android_image.run` (boot_control.py), abstracted
over the external `client.boot_linaro_android_image` call (the client
lives outside src/); the preceding statements only copy the action
parameters into the external client config and are elided.  An
`ADBConnectError` is logged and re-raised unchanged; any other
exception is logged and replaced by a generic fatal `CriticalError`. -/
def cmd_boot_linaro_android_image_run (bootCall : M Unit) : M Unit :=
  match bootCall with
  | (Except.ok a, tr) => (Except.ok a, tr)
  | (Except.error Err.adbConnectError, tr) =>
      (Except.error Err.adbConnectError,
       tr ++ [Event.logException "boot_linaro_android_image failed to create the adb connection"])
  | (Except.error _, tr) =>
      (Except.error (Err.critical "Failed to boot test image."),
       tr ++ [Event.logException "boot_linaro_android_image failed"])

/-! ### Helper functions for stating trace properties -/

/-- Is `p` a contiguous sublist of the second list (computable infix test)? -/
def hasSub (p : List Char) : List Char → Bool
  | [] => p.isEmpty
  | c :: t => (List.isPrefixOf p (c :: t) || hasSub p t)

/-- Does the string contain `pat` as a substring? -/
def hasSubStr (s pat : String) : Bool := hasSub pat.data s.data

/-- The shell command carried by an event (empty for non-command events). -/
def eventCmd : Event → String
  | Event.runCommand c _ => c
  | _ => ""

/-- Does a trace contain a shell command with the given substring? -/
def traceMentions (tr : List Event) (pat : String) : Bool :=
  tr.any (fun e => hasSubStr (eventCmd e) pat)

/-- Boards whose `boot` is the inherited `BaseDriver.boot`
(the others override it). -/
def usesBaseBoot : Board → Bool
  | Board.base => true
  | Board.fastboot => true
  | Board.fastboot_serial => true
  | _ => false

/-- The full soft-reset command line issued by `FastBoot.enter`. -/
def softResetCmd (cfg : Config) : String := timeoutWrap 600 (adbCmdStr cfg cfg.soft_boot_cmd)

/-! ### Concrete fixtures for witnesses and counterexamples -/

/-- An environment where every external command succeeds, downloads land
at their URL, and the ramdisk service appends recognizable suffixes. -/
def envEx : Env :=
  { runOk := fun _ => true
    checkOk := fun _ => true
    download := fun u => u
    extractDir := fun p => p ++ ".dir"
    repackPath := fun d => d ++ ".cpio"
    mkdtempDir := fun b => b ++ "/tmp0" }

/-- A representative device configuration. -/
def cfgEx : Config :=
  { fastboot_command := "fastboot"
    adb_command := "adb"
    soft_boot_cmd := "reboot-bootloader"
    hard_reset_command := some "hard-reset"
    fastboot_kernel_load_addr := some "0x80008000"
    rootfs_partition := "userdata"
    connection_command := none
    shared_working_directory := none
    data_part_android_org := "userdata"
    sys_part_android_org := "system" }

/-- `cfgEx` with no configured kernel load address. -/
def cfgNoAddr : Config := { cfgEx with fastboot_kernel_load_addr := none }

/-- `cfgEx` with no configured hard reset command. -/
def cfgNoHard : Config := { cfgEx with hard_reset_command := none }

/-- An environment in which exactly the soft-reset command fails. -/
def envSoftFail : Env :=
  { envEx with runOk := fun c => !(c == softResetCmd cfgEx) }

/-- A representative kernel-deploy argument record. -/
def kargsEx : KernelDeployArgs :=
  { kernel := some "k.img"
    ramdisk := some "rd.img"
    dtb := none
    modules := some "mods.tgz"
    rootfs := none
    nfsrootfs := none
    bootloader := none
    firmware := none
    bl1 := none
    bl2 := none
    bl31 := none
    rootfstype := none
    bootloadertype := none
    target_type := "android"
    scratch_dir := "sd" }

/-- A with-block body that raises, exercising the exception path of the
scoped remote file access. -/
def bodyRaise : String → DM Unit := fun _ => DM.throw (Err.other "caller failure")

/-! ### Claim theorems -/

/-- **C6.** For every board variant that rejects kernel deployment
(`fastboot`, `nexus10`, `capri`, `pxa1928dkb`, `k3v2`), invoking
`deploy_linaro_kernel` with any arguments raises the fatal
unsupported-operation `CriticalError` with an empty trace — before any
Flasher Client or Bridge Client invocation — and leaves the driver
state unchanged. -/
theorem variant_kernel_deploy_rejected (b : Board)
    (hb : b = Board.fastboot ∨ b = Board.nexus10 ∨ b = Board.capri ∨
          b = Board.pxa1928dkb ∨ b = Board.k3v2)
    (env : Env) (cfg : Config) (a : KernelDeployArgs) (s : DriverState) :
    deploy_linaro_kernel b env cfg a s
      = (Except.error (Err.critical "This platform does not support kernel deployment!"), s, []) := by
  rcases hb with h | h | h | h | h <;> subst h <;> rfl

/-- Witness for C6 at the `capri` board with concrete arguments. -/
theorem variant_kernel_deploy_rejected_witness :
    deploy_linaro_kernel Board.capri envEx cfgEx kargsEx initState
      = (Except.error (Err.critical "This platform does not support kernel deployment!"),
         initState, []) :=
  variant_kernel_deploy_rejected Board.capri (Or.inr (Or.inr (Or.inl rfl)))
    envEx cfgEx kargsEx initState

/-- **C9.** In the android boot action, a successful client call passes
through; a bridge-connection failure (`ADBConnectError`) is logged and
re-raised unchanged as its distinguished kind; every other failure is
logged and re-raised as the single generic fatal
`CriticalError("Failed to boot test image.")`. -/
theorem android_boot_action_error_routing (tr : List Event) (e : Err)
    (he : e ≠ Err.adbConnectError) :
    cmd_boot_linaro_android_image_run (Except.ok (), tr) = (Except.ok (), tr)
    ∧ cmd_boot_linaro_android_image_run (Except.error Err.adbConnectError, tr)
        = (Except.error Err.adbConnectError,
           tr ++ [Event.logException "boot_linaro_android_image failed to create the adb connection"])
    ∧ cmd_boot_linaro_android_image_run (Except.error e, tr)
        = (Except.error (Err.critical "Failed to boot test image."),
           tr ++ [Event.logException "boot_linaro_android_image failed"]) := by
  refine ⟨rfl, rfl, ?_⟩
  cases e with
  | adbConnectError => exact absurd rfl he
  | _ => rfl

/-- Witness for C9 at a concrete non-ADB failure. -/
theorem android_boot_action_error_routing_witness :
    cmd_boot_linaro_android_image_run (Except.error (Err.other "panic"), [])
      = (Except.error (Err.critical "Failed to boot test image."),
         [Event.logException "boot_linaro_android_image failed"]) :=
  (android_boot_action_error_routing [] (Err.other "panic") (by decide)).2.2

/-- **C8.** Every flashing-tool invocation issued through the Flasher
Client is a single shell command wrapped in the forceful kill-timeout
(`timeout -s SIGKILL <t>s`) around the fixed named host-wide lock
(`flock /var/lock/lava-fastboot.lck`), the same lock file for all
invocations; `erase`, `flash` and the boot path use the default 600s
timeout, while the liveness probe uses the shorter explicit 2s timeout. -/
theorem fastboot_invocations_locked_and_timed (env : Env) (cfg : Config)
    (args p i img : String) (ig : Bool) (t : Nat) :
    (FastBoot.call env cfg args ig t).2
        = [Event.runCommand (timeoutWrap t (lockWrap (cfg.fastboot_command ++ " " ++ args))) ig]
    ∧ FastBoot.erase env cfg p = FastBoot.call env cfg ("erase " ++ p) false 600
    ∧ FastBoot.flash env cfg p i = FastBoot.call env cfg ("flash " ++ p ++ " " ++ i) false 600
    ∧ (FastBoot.bootImg env cfg img).2.head?
        = some (Event.runCommand (timeoutWrap 600 (fbCmd cfg "reboot")) false)
    ∧ (FastBoot.on' env cfg).2
        = [Event.logInfo "Waiting for 10 seconds for connection to settle",
           Event.sleepSec 10,
           Event.runCommand (timeoutWrap 2 (fbCmd cfg "getvar all")) false] := by
  refine ⟨rfl, rfl, rfl, ?_, ?_⟩
  · cases h : env.runOk (timeoutWrap 600 (fbCmd cfg "reboot")) <;>
      simp [FastBoot.bootImg, FastBoot.call, _call, run_command, emit, Bind.bind, Monad.toBind, h]
  · cases h : env.runOk (timeoutWrap 2 (fbCmd cfg "getvar all")) <;>
      simp [FastBoot.on', FastBoot.call, _call, run_command, emit, M.tryCatchWith,
            Bind.bind, Monad.toBind, h]

/-- **C3 counterexample.** On the `nexus10` driver, invoking `boot`
before any deploy (fresh driver state, so `__boot_image__` is `None`)
does not raise: it invokes the flashing tool, flashing the literal
string `None` to the boot partition and rebooting. -/
theorem boot_before_deploy_cx :
    boot Board.nexus10 envEx cfgEx none initState
      = (Except.ok (), initState,
         [Event.runCommand "timeout -s SIGKILL 600s flock /var/lock/lava-fastboot.lck fastboot flash boot None" false,
          Event.runCommand "timeout -s SIGKILL 600s flock /var/lock/lava-fastboot.lck fastboot reboot" false]) := by
  rfl

/-- **C3 (amended).** Drivers using the inherited base `boot` (`base`,
`fastboot`, `fastboot_serial`) raise the fatal "Deploy action must be
run first" error before any flashing-tool invocation when boot precedes
deploy; the variants overriding `boot` (`nexus10`, `capri`,
`pxa1928dkb`, `k3v2`) perform no such check and their first emitted
command is a flashing-tool invocation flashing the literal string
`None` to the boot partition. -/
theorem boot_before_deploy_behavior (b : Board) (env : Env) (cfg : Config)
    (bc : Option String) (s : DriverState) (h : s.boot_image = none) :
    (usesBaseBoot b = true →
       boot b env cfg bc s
         = (Except.error (Err.critical "Deploy action must be run first"), s, []))
    ∧ (usesBaseBoot b = false →
       (boot b env cfg bc s).2.2.head?
         = some (Event.runCommand (timeoutWrap 600 (fbCmd cfg ("flash " ++ "boot" ++ " " ++ "None"))) false)) := by
  constructor
  · intro hb
    cases b <;> simp_all [boot, base_boot, getS, DM.throw, Bind.bind, Monad.toBind, usesBaseBoot]
  · intro hb
    cases b <;> simp_all [usesBaseBoot] <;>
      cases hf : env.runOk (timeoutWrap 600 (fbCmd cfg ("flash " ++ "boot" ++ " " ++ "None"))) <;>
      cases hr : env.runOk (timeoutWrap 600 (fbCmd cfg "reboot")) <;>
      simp_all [boot, variant_boot_flash, FastBoot.flash, FastBoot.call, _call, run_command,
                liftE, getS, pyStr, driver_adb, adb_call, Bind.bind, Monad.toBind, h]

/-- Witness for the amended C3 on a base-boot board. -/
theorem boot_before_deploy_behavior_witness :
    boot Board.fastboot envEx cfgEx none initState
      = (Except.error (Err.critical "Deploy action must be run first"), initState, []) :=
  (boot_before_deploy_behavior Board.fastboot envEx cfgEx none initState rfl).1 rfl

/-- **C4.** Enter-flash-mode escalation: when the soft reset raises an
external-command failure, `enter()` with a configured (truthy) hard
reset command that succeeds invokes it exactly once and returns without
raising; with no hard reset command configured, `enter()` emits the
critical warning and returns without raising. -/
theorem enter_reset_escalation (env : Env) (cfg : Config)
    (hsoft : env.runOk (softResetCmd cfg) = false) :
    (∀ h, optTruthy cfg.hard_reset_command = some h → env.runOk h = true →
       FastBoot.enter env cfg
         = (Except.ok (),
            [Event.runCommand (softResetCmd cfg) false,
             Event.logDebug "Will hard reset the device",
             Event.runCommand h false]))
    ∧ (optTruthy cfg.hard_reset_command = none →
       FastBoot.enter env cfg
         = (Except.ok (),
            [Event.runCommand (softResetCmd cfg) false,
             Event.logCritical "Hard reset command not configured. Please reset the device manually."])) := by
  simp only [softResetCmd] at hsoft
  constructor
  · intro h hh hrun
    simp [FastBoot.enter, M.tryCatchWith, adb_call, _call, run_command, emit,
          hsoft, hh, hrun, Bind.bind, Monad.toBind, softResetCmd]
  · intro hh
    simp [FastBoot.enter, M.tryCatchWith, adb_call, _call, run_command, emit,
          hsoft, hh, Bind.bind, Monad.toBind, softResetCmd]

/-- Witness for C4: soft reset fails, hard reset configured and succeeds. -/
theorem enter_reset_escalation_witness :
    FastBoot.enter envSoftFail cfgEx
      = (Except.ok (),
         [Event.runCommand (softResetCmd cfgEx) false,
          Event.logDebug "Will hard reset the device",
          Event.runCommand "hard-reset" false]) :=
  (enter_reset_escalation envSoftFail cfgEx (by decide)).1 "hard-reset" (by decide) (by decide)

/-- **C10.** Invoking `deploy_android` with `boot=None` raises the
fatal "A boot image is required!" error, but only after the
erase-boot-partition step: on boards whose `erase_boot` is not a no-op
the flashing-tool erase invocation is already in the trace when the
error surfaces (and the pre-raise state mutations persist); on the
no-op boards (`capri`, `pxa1928dkb`) the same error is raised with no
flashing-tool invocation. -/
theorem deploy_android_erase_before_missing_boot_error (b : Board) (env : Env) (cfg : Config)
    (system userdata rootfstype bootloadertype : Option String) (tt sd : String) (s : DriverState)
    (henv : env.runOk (timeoutWrap 600 (fbCmd cfg ("erase " ++ "boot"))) = true) :
    (b ≠ Board.capri → b ≠ Board.pxa1928dkb →
       deploy_android b env cfg none system userdata rootfstype bootloadertype tt sd s
         = (Except.error (Err.critical "A boot image is required!"),
            { s with target_type := some tt, scratch_dir := some sd },
            [Event.runCommand (timeoutWrap 600 (fbCmd cfg ("erase " ++ "boot"))) false]))
    ∧ (b = Board.capri ∨ b = Board.pxa1928dkb →
       deploy_android b env cfg none system userdata rootfstype bootloadertype tt sd s
         = (Except.error (Err.critical "A boot image is required!"),
            { s with target_type := some tt, scratch_dir := some sd },
            [])) := by
  constructor
  · intro h1 h2
    cases b <;> simp_all [deploy_android, erase_boot, modifyS, DM.throw, liftE,
      FastBoot.erase, FastBoot.call, _call, run_command, Bind.bind, Monad.toBind]
  · intro hb
    rcases hb with h | h <;> subst h <;> rfl

/-- Witness for C10 on the base driver. -/
theorem deploy_android_erase_before_missing_boot_error_witness :
    deploy_android Board.base envEx cfgEx none (some "img2") none none none "android" "sd" initState
      = (Except.error (Err.critical "A boot image is required!"),
         { initState with target_type := some "android", scratch_dir := some "sd" },
         [Event.runCommand (timeoutWrap 600 (fbCmd cfgEx ("erase " ++ "boot"))) false]) :=
  (deploy_android_erase_before_missing_boot_error Board.base envEx cfgEx
      (some "img2") none none none "android" "sd" initState (by decide)).1
    (by decide) (by decide)

/-- **C2 counterexample.** Deploying with `boot="img1", system="img2",
userdata=None` issues no flash of the boot partition at all (the boot
partition is erased, not flashed, and the boot image is only downloaded
and recorded as the boot target), refuting the claimed
boot-partition flash; the deploy itself completes. -/
theorem deploy_android_no_boot_flash_cx :
    traceMentions
        (deploy_android Board.base envEx cfgEx (some "img1") (some "img2") none none none
            "android" "sd" initState).2.2 "flash boot" = false
    ∧ (deploy_android Board.base envEx cfgEx (some "img1") (some "img2") none none none
          "android" "sd" initState).1 = Except.ok () := by
  exact ⟨by decide, rfl⟩

/-- **C2 (amended).** Deploying with `boot="img1", system="img2",
userdata=None` issues an erase of the boot partition (no boot flash),
downloads both images, flashes the system partition with the downloaded
img2, issues no userdata flash, and sets the boot target to the
downloaded img1. -/
theorem deploy_android_erase_and_flash (env : Env) (cfg : Config) (bUrl sUrl : String)
    (rt bt : Option String) (tt sd : String) (s : DriverState)
    (hshared : cfg.shared_working_directory = none)
    (henv : ∀ c, env.runOk c = true) :
    deploy_android Board.base env cfg (some bUrl) (some sUrl) none rt bt tt sd s
      = (Except.ok (),
         { s with target_type := some tt, scratch_dir := some sd,
                  boot_image := some (env.download bUrl) },
         [Event.runCommand (timeoutWrap 600 (fbCmd cfg ("erase " ++ "boot"))) false,
          Event.downloadImage bUrl (some sd) true,
          Event.downloadImage sUrl (some sd) true,
          Event.runCommand
            (timeoutWrap 600 (fbCmd cfg ("flash " ++ "system" ++ " " ++ env.download sUrl)))
            false]) := by
  simp [deploy_android, erase_boot, modifyS, liftE, getS, _get_image, working_dir,
        download_image, FastBoot.erase, FastBoot.flash, FastBoot.call, _call, run_command,
        hshared, henv, Bind.bind, Monad.toBind, Pure.pure, Applicative.toPure]

/-- Witness for the amended C2 at concrete inputs. -/
theorem deploy_android_erase_and_flash_witness :
    deploy_android Board.base envEx cfgEx (some "img1") (some "img2") none none none
        "android" "sd" initState
      = (Except.ok (),
         { initState with target_type := some "android", scratch_dir := some "sd",
                          boot_image := some "img1" },
         [Event.runCommand (timeoutWrap 600 (fbCmd cfgEx ("erase " ++ "boot"))) false,
          Event.downloadImage "img1" (some "sd") true,
          Event.downloadImage "img2" (some "sd") true,
          Event.runCommand (timeoutWrap 600 (fbCmd cfgEx ("flash " ++ "system" ++ " " ++ "img2")))
            false]) :=
  deploy_android_erase_and_flash envEx cfgEx "img1" "img2" none none "android" "sd" initState
    rfl (fun _ => rfl)

/-- **C1 counterexample.** When the caller raises inside the scoped
remote file access, no push back to the remote path is issued: the
generator has no try/finally around its yield, so the trace ends with
the pull and the caller's exception propagates. -/
theorem adb_file_system_no_push_on_raise_cx :
    traceMentions
        (adb_file_system envEx cfgEx "system" "cfgdir" bodyRaise initState).2.2 " push " = false
    ∧ (adb_file_system envEx cfgEx "system" "cfgdir" bodyRaise initState).1
        = Except.error (Err.other "caller failure")
    ∧ traceMentions
        (adb_file_system envEx cfgEx "system" "cfgdir" bodyRaise initState).2.2 " pull " = true := by
  exact ⟨by decide, rfl, by decide⟩

/-- **C1 (amended).** The scoped remote file access resolves the mount
point, stages under the working directory, pulls tolerating failure,
and pushes the staging directory back to the remote path only when the
caller's body completes normally; when the body raises, the exception
propagates and the scope itself issues no push. -/
theorem adb_file_system_push_on_normal_exit {α : Type} (env : Env) (cfg : Config)
    (partition directory : String) (body : String → DM α) (s : DriverState)
    (mp hd td : String) (wd : Option String) (s1 : DriverState) (trW : List Event)
    (hmp : _get_partition_mount_point cfg partition = Except.ok mp)
    (hwd : working_dir env cfg s = (Except.ok wd, s1, trW))
    (hhd : hd = pyStr wd ++ "/mnt/" ++ directory)
    (htd : td = mp ++ "/" ++ directory)
    (hck : env.checkOk ["mkdir", "-p", hd] = true) :
    (∀ a s2 trB, body hd s1 = (Except.ok a, s2, trB) →
       adb_file_system env cfg partition directory body s
         = ((if env.runOk (timeoutWrap 600 (adbCmdStr cfg ("push " ++ hd ++ " " ++ td))) = true
               then Except.ok a else Except.error Err.calledProcessError),
            s2,
            trW ++ Event.checkCall ["mkdir", "-p", hd]
               :: Event.runCommand (timeoutWrap 600 (adbCmdStr cfg ("pull " ++ td ++ " " ++ hd))) true
               :: (trB ++ [Event.runCommand (timeoutWrap 600 (adbCmdStr cfg ("push " ++ hd ++ " " ++ td))) false])))
    ∧ (∀ e s2 trB, body hd s1 = (Except.error e, s2, trB) →
       adb_file_system env cfg partition directory body s
         = (Except.error e, s2,
            trW ++ Event.checkCall ["mkdir", "-p", hd]
               :: Event.runCommand (timeoutWrap 600 (adbCmdStr cfg ("pull " ++ td ++ " " ++ hd))) true
               :: trB)) := by
  subst hhd htd
  constructor
  · intro a s2 trB hbody
    cases hpush : env.runOk (timeoutWrap 600 (adbCmdStr cfg
        ("push " ++ (pyStr wd ++ "/mnt/" ++ directory) ++ " " ++ (mp ++ "/" ++ directory)))) <;>
      simp [adb_file_system, hmp, hwd, hbody, hck, hpush, check_call, driver_adb, adb_call,
            _call, run_command, liftE, DM.throw, Bind.bind, Monad.toBind]
  · intro e s2 trB hbody
    simp [adb_file_system, hmp, hwd, hbody, hck, check_call, driver_adb, adb_call,
          _call, run_command, liftE, DM.throw, Bind.bind, Monad.toBind]

/-- Witness for the amended C1: a normally-completing body results in a
push of the staging directory back to the remote directory. -/
theorem adb_file_system_push_on_normal_exit_witness :
    adb_file_system envEx cfgEx "system" "cfgdir" (fun _ => (pure () : DM Unit)) initState
      = (Except.ok (), initState,
         [Event.checkCall ["mkdir", "-p", "None/mnt/cfgdir"],
          Event.runCommand (timeoutWrap 600 (adbCmdStr cfgEx "pull /system/cfgdir None/mnt/cfgdir")) true,
          Event.runCommand (timeoutWrap 600 (adbCmdStr cfgEx "push None/mnt/cfgdir /system/cfgdir")) false]) := by
  have h := (adb_file_system_push_on_normal_exit envEx cfgEx "system" "cfgdir"
      (fun _ => (pure () : DM Unit)) initState "/system" "None/mnt/cfgdir" "/system/cfgdir"
      none initState [] rfl rfl rfl rfl rfl).1 () initState [] rfl
  simpa using h

/-- Appending on the left of a string is cancellative. -/
theorem strAppendLeftCancel (p a b : String) (h : p ++ a = p ++ b) : a = b := by
  apply String.ext
  have h2 : (p ++ a).data = (p ++ b).data := congrArg String.data h
  have h3 : p.data ++ a.data = p.data ++ b.data := by simpa using h2
  exact List.append_cancel_left h3

/-- **C7.** Kernel deploy with kernel, ramdisk and modules all given
downloads all three, extracts the ramdisk, injects the modules, repacks
(the driver's ramdisk becomes the repacked path), and sets the boot
target to the kernel path; the subsequent boot emits exactly one
flashing-tool invocation whose command line embeds the configured
kernel load address and the repacked ramdisk — a command line distinct
from the one that would reference the original downloaded ramdisk
whenever the repacked path differs. -/
theorem deploy_kernel_modules_repack_boot (env : Env) (cfg : Config)
    (a : KernelDeployArgs) (k r m : String) (bc : Option String) (s : DriverState) (addr : String)
    (hk : a.kernel = some k) (hr : a.ramdisk = some r) (hm : a.modules = some m)
    (hro : a.rootfs = none)
    (hshared : cfg.shared_working_directory = none)
    (haddr : optTruthy cfg.fastboot_kernel_load_addr = some addr) :
    deploy_linaro_kernel Board.base env cfg a s
      = (Except.ok (),
         { s with target_type := some a.target_type, scratch_dir := some a.scratch_dir,
                  kernel := some (env.download k),
                  ramdisk := some (env.repackPath (env.extractDir (env.download r))),
                  boot_image := some "kernel" },
         [Event.downloadImage k (some a.scratch_dir) true,
          Event.downloadImage r (some a.scratch_dir) true,
          Event.downloadImage m s.working_dir_cache false,
          Event.extractRamdiskEv (env.download r) (some a.scratch_dir),
          Event.extractModulesEv (env.download m) (env.extractDir (env.download r)),
          Event.createRamdiskEv (env.extractDir (env.download r)) s.working_dir_cache])
    ∧ (boot Board.base env cfg bc
          { s with target_type := some a.target_type, scratch_dir := some a.scratch_dir,
                   kernel := some (env.download k),
                   ramdisk := some (env.repackPath (env.extractDir (env.download r))),
                   boot_image := some "kernel" }).2.2
        = [Event.runCommand
             (timeoutWrap 600 (fbCmd cfg (kernelBootArgsR bc addr (env.download k)
                (env.repackPath (env.extractDir (env.download r))))))
             false]
    ∧ (env.repackPath (env.extractDir (env.download r)) ≠ env.download r →
       kernelBootArgsR bc addr (env.download k) (env.repackPath (env.extractDir (env.download r)))
         ≠ kernelBootArgsR bc addr (env.download k) (env.download r)) := by
  refine ⟨?_, ?_, ?_⟩
  · simp [deploy_linaro_kernel, base_deploy_linaro_kernel, hk, hr, hm, hro, _get_image,
          working_dir, hshared, download_image, extract_ramdisk, extract_modules,
          create_ramdisk, modifyS, getS, liftE, pyStr, Bind.bind, Monad.toBind]
  · simp [boot, base_boot, haddr, FastBoot.call, _call, run_command, liftE, getS,
          Bind.bind, Monad.toBind]
  · intro hne heq
    exact hne (strAppendLeftCancel (kernelBootArgsK bc addr (env.download k) ++ " ") _ _ heq)

/-- Witness for C7 at concrete inputs. -/
theorem deploy_kernel_modules_repack_boot_witness :
    deploy_linaro_kernel Board.base envEx cfgEx kargsEx initState
      = (Except.ok (),
         { initState with target_type := some "android", scratch_dir := some "sd",
                          kernel := some "k.img",
                          ramdisk := some "rd.img.dir.cpio",
                          boot_image := some "kernel" },
         [Event.downloadImage "k.img" (some "sd") true,
          Event.downloadImage "rd.img" (some "sd") true,
          Event.downloadImage "mods.tgz" none false,
          Event.extractRamdiskEv "rd.img" (some "sd"),
          Event.extractModulesEv "mods.tgz" "rd.img.dir",
          Event.createRamdiskEv "rd.img.dir" none]) :=
  (deploy_kernel_modules_repack_boot envEx cfgEx kargsEx "k.img" "rd.img" "mods.tgz" none
      initState "0x80008000" rfl rfl rfl rfl rfl (by decide)).1

/-! ### Driver API operation sequences (reachable states, claim C5) -/

/-- One invocation of the public driver API. -/
inductive Op where
  | deployKernelOp (a : KernelDeployArgs)
  | deployAndroidOp (boot_img system userdata rootfstype bootloadertype : Option String)
      (target_type scratch_dir : String)
  | bootOp (boot_cmds : Option String)
  | eraseBootOp
  | enterFastbootOp

/-- An API invocation together with the environment and configuration
in effect for it. -/
structure OpCall where
  env : Env
  cfg : Config
  op : Op

/-- The driver state after one API invocation (whether it returned or
raised: mutations before a raise persist). -/
def applyOp (b : Board) (c : OpCall) (s : DriverState) : DriverState :=
  match c.op with
  | Op.deployKernelOp a => (deploy_linaro_kernel b c.env c.cfg a s).2.1
  | Op.deployAndroidOp bi sy ud rt bt tt sd =>
      (deploy_android b c.env c.cfg bi sy ud rt bt tt sd s).2.1
  | Op.bootOp bc => (boot b c.env c.cfg bc s).2.1
  | Op.eraseBootOp => (erase_boot b c.env c.cfg s).2.1
  | Op.enterFastbootOp => (enter_fastboot b c.env c.cfg s).2.1

/-- The driver state after a sequence of API invocations. -/
def runOps (b : Board) (cs : List OpCall) (s : DriverState) : DriverState :=
  cs.foldl (fun s0 c => applyOp b c s0) s

/-- A driver computation that never changes the kernel-artifact field. -/
def kernelInv {α : Type} (m : DM α) : Prop := ∀ s, ((m s).2.1).kernel = s.kernel

theorem kernelInv_pure {α : Type} (a : α) : kernelInv (pure a : DM α) := fun _ => rfl

theorem kernelInv_bind {α β : Type} {m : DM α} {f : α → DM β}
    (hm : kernelInv m) (hf : ∀ a, kernelInv (f a)) : kernelInv (m >>= f) := by
  intro s
  have hb : (m >>= f) s
      = match m s with
        | (Except.error e, s1, tr) => (Except.error e, s1, tr)
        | (Except.ok a, s1, tr) =>
          match f a s1 with
          | (r, s2, tr2) => (r, s2, tr ++ tr2) := rfl
  rw [hb]
  rcases hms : m s with ⟨res, s1, tr⟩
  have h1 : s1.kernel = s.kernel := by
    have hh := hm s
    rw [hms] at hh
    exact hh
  cases res with
  | error e => simpa using h1
  | ok a =>
    rcases hfs : f a s1 with ⟨r2, s2, tr2⟩
    have h2 : s2.kernel = s1.kernel := by
      have hh := hf a s1
      rw [hfs] at hh
      exact hh
    simp [hfs, h2, h1]

theorem kernelInv_liftE {α : Type} (x : M α) : kernelInv (liftE x) := fun _ => rfl

theorem kernelInv_getS : kernelInv getS := fun _ => rfl

theorem kernelInv_throw {α : Type} (e : Err) : kernelInv (DM.throw e : DM α) := fun _ => rfl

theorem kernelInv_modifyS (f : DriverState → DriverState)
    (hf : ∀ s, (f s).kernel = s.kernel) : kernelInv (modifyS f) := fun s => hf s

theorem kernelInv_working_dir (env : Env) (cfg : Config) : kernelInv (working_dir env cfg) := by
  unfold working_dir
  cases cfg.shared_working_directory with
  | none => exact kernelInv_bind kernelInv_getS (fun _ => kernelInv_pure _)
  | some w =>
    by_cases hw : w.trim = ""
    · simp only [if_pos hw]
      exact kernelInv_bind kernelInv_getS (fun _ => kernelInv_pure _)
    · simp only [if_neg hw]
      apply kernelInv_bind kernelInv_getS
      intro a
      cases a.working_dir_cache with
      | some d => exact kernelInv_pure _
      | none =>
        exact kernelInv_bind (kernelInv_liftE _)
          (fun d => kernelInv_bind (kernelInv_modifyS _ (fun _ => rfl))
            (fun _ => kernelInv_pure _))

theorem kernelInv_get_image (env : Env) (cfg : Config) (url : String) :
    kernelInv (_get_image env cfg url) := by
  unfold _get_image
  exact kernelInv_bind (kernelInv_working_dir env cfg) (fun _ => kernelInv_liftE _)

theorem kernelInv_erase_boot (b : Board) (env : Env) (cfg : Config) :
    kernelInv (erase_boot b env cfg) := by
  cases b <;> first
    | exact kernelInv_pure _
    | exact kernelInv_liftE _

theorem kernelInv_deploy_android (b : Board) (env : Env) (cfg : Config)
    (bi sy ud rt bt : Option String) (tt sd : String) :
    kernelInv (deploy_android b env cfg bi sy ud rt bt tt sd) := by
  unfold deploy_android
  refine kernelInv_bind ?_ ?_
  · exact kernelInv_modifyS _ (fun _ => rfl)
  · intro _
    refine kernelInv_bind ?_ ?_
    · exact kernelInv_erase_boot b env cfg
    · intro _
      cases bi with
      | none => exact kernelInv_throw _
      | some bUrl =>
        refine kernelInv_bind ?_ ?_
        · exact kernelInv_get_image env cfg bUrl
        · intro bp
          dsimp only
          cases sy with
          | some sysUrl =>
            refine kernelInv_bind ?_ ?_
            · exact kernelInv_get_image env cfg sysUrl
            · intro _
              refine kernelInv_bind (kernelInv_liftE _) ?_
              intro _
              cases ud with
              | some uUrl =>
                refine kernelInv_bind ?_ ?_
                · exact kernelInv_get_image env cfg uUrl
                · intro _
                  refine kernelInv_bind (kernelInv_liftE _) ?_
                  intro _
                  exact kernelInv_modifyS _ (fun _ => rfl)
              | none =>
                refine kernelInv_bind (kernelInv_pure _) ?_
                intro _
                exact kernelInv_modifyS _ (fun _ => rfl)
          | none =>
            refine kernelInv_bind (kernelInv_pure _) ?_
            intro _
            cases ud with
            | some uUrl =>
              refine kernelInv_bind ?_ ?_
              · exact kernelInv_get_image env cfg uUrl
              · intro _
                refine kernelInv_bind (kernelInv_liftE _) ?_
                intro _
                exact kernelInv_modifyS _ (fun _ => rfl)
            | none =>
              refine kernelInv_bind (kernelInv_pure _) ?_
              intro _
              exact kernelInv_modifyS _ (fun _ => rfl)

theorem kernelInv_base_boot (env : Env) (cfg : Config) (bc : Option String) :
    kernelInv (base_boot env cfg bc) := by
  unfold base_boot
  apply kernelInv_bind kernelInv_getS
  intro a
  cases a.boot_image with
  | none => exact kernelInv_throw _
  | some img =>
    cases a.kernel with
    | none => exact kernelInv_liftE _
    | some k =>
      cases a.ramdisk with
      | some r =>
        cases optTruthy cfg.fastboot_kernel_load_addr with
        | some addr => exact kernelInv_liftE _
        | none => exact kernelInv_throw _
      | none =>
        cases optTruthy cfg.fastboot_kernel_load_addr with
        | some addr => exact kernelInv_liftE _
        | none => exact kernelInv_throw _

theorem kernelInv_variant_boot_flash (env : Env) (cfg : Config) :
    kernelInv (variant_boot_flash env cfg) := by
  unfold variant_boot_flash
  apply kernelInv_bind kernelInv_getS
  intro _
  exact kernelInv_bind (kernelInv_liftE _) (fun _ => kernelInv_liftE _)

theorem kernelInv_boot (b : Board) (env : Env) (cfg : Config) (bc : Option String) :
    kernelInv (boot b env cfg bc) := by
  cases b with
  | base => exact kernelInv_base_boot env cfg bc
  | fastboot => exact kernelInv_base_boot env cfg bc
  | fastboot_serial => exact kernelInv_base_boot env cfg bc
  | nexus10 => exact kernelInv_variant_boot_flash env cfg
  | capri => exact kernelInv_variant_boot_flash env cfg
  | k3v2 => exact kernelInv_variant_boot_flash env cfg
  | pxa1928dkb =>
    apply kernelInv_bind (kernelInv_variant_boot_flash env cfg)
    intro _
    apply kernelInv_bind kernelInv_getS
    intro a
    by_cases h : a.target_type = some "android"
    · simp only [if_pos h]
      exact kernelInv_liftE _
    · simp only [if_neg h]
      exact kernelInv_pure _

theorem kernelInv_enter_fastboot (b : Board) (env : Env) (cfg : Config) :
    kernelInv (enter_fastboot b env cfg) := by
  cases b <;> first
    | exact kernelInv_throw _
    | exact kernelInv_liftE _
    | exact kernelInv_bind (kernelInv_liftE _) (fun _ => kernelInv_liftE _)

/-- On the boot-overriding boards, no API invocation can ever change
the kernel-artifact field (in particular their rejecting
`deploy_linaro_kernel` leaves the state untouched). -/
theorem applyOp_kernel_overrider (b : Board) (hb : usesBaseBoot b = false)
    (c : OpCall) (s : DriverState) : (applyOp b c s).kernel = s.kernel := by
  cases c with
  | mk env cfg op =>
    cases op with
    | deployKernelOp a =>
      cases b <;> simp_all [usesBaseBoot, applyOp, deploy_linaro_kernel, DM.throw]
    | deployAndroidOp bi sy ud rt bt tt sd =>
      exact kernelInv_deploy_android b env cfg bi sy ud rt bt tt sd s
    | bootOp bc => exact kernelInv_boot b env cfg bc s
    | eraseBootOp => exact kernelInv_erase_boot b env cfg s
    | enterFastbootOp => exact kernelInv_enter_fastboot b env cfg s

/-- **C5.** With no configured kernel load address: on every board
whose `boot` is the inherited base implementation, invoking boot in any
state with a kernel artifact set raises a fatal `CriticalError` with an
empty trace (no flashing-tool invocation); on every board that
overrides `boot`, no sequence of driver API invocations from the
initial state can ever set a kernel artifact (their kernel deploy is
rejected before touching state), so kernel-path boot is unreachable
there. -/
theorem kernel_boot_missing_load_addr (b : Board) (env : Env) (cfg : Config)
    (bc : Option String) (s : DriverState)
    (haddr : optTruthy cfg.fastboot_kernel_load_addr = none) :
    (usesBaseBoot b = true → s.kernel ≠ none →
       (∃ msg, (boot b env cfg bc s).1 = Except.error (Err.critical msg))
       ∧ (boot b env cfg bc s).2.2 = [])
    ∧ (usesBaseBoot b = false → ∀ cs, (runOps b cs initState).kernel = none) := by
  constructor
  · intro hb hk
    have hboot : boot b env cfg bc s = base_boot env cfg bc s := by
      cases b <;> simp_all [usesBaseBoot, boot]
    rcases hsb : s.boot_image with _ | img
    · refine ⟨⟨"Deploy action must be run first", ?_⟩, ?_⟩ <;>
        simp [hboot, base_boot, getS, DM.throw, Bind.bind, Monad.toBind, hsb]
    · rcases hsk : s.kernel with _ | k
      · exact absurd hsk hk
      · rcases hsr : s.ramdisk with _ | r <;>
          refine ⟨⟨"Kernel load address not defined!", ?_⟩, ?_⟩ <;>
          simp [hboot, base_boot, getS, DM.throw, Bind.bind, Monad.toBind, hsb, hsk, hsr, haddr]
  · intro hb cs
    have hrun : ∀ (l : List OpCall) (s0 : DriverState), (runOps b l s0).kernel = s0.kernel := by
      intro l
      induction l with
      | nil => intro s0; rfl
      | cons c t ih =>
        intro s0
        have hc : runOps b (c :: t) s0 = runOps b t (applyOp b c s0) := rfl
        rw [hc, ih, applyOp_kernel_overrider b hb c s0]
    rw [hrun cs initState]
    rfl

/-- A reachable-looking state with a kernel artifact set, for the C5 witness. -/
def sKernelSet : DriverState := { initState with kernel := some "k.img", boot_image := some "kernel" }

/-- Witness for C5 on the base driver with a kernel artifact set and no
load address configured. -/
theorem kernel_boot_missing_load_addr_witness :
    (∃ msg, (boot Board.base envEx cfgNoAddr none sKernelSet).1 = Except.error (Err.critical msg))
    ∧ (boot Board.base envEx cfgNoAddr none sKernelSet).2.2 = [] :=
  (kernel_boot_missing_load_addr Board.base envEx cfgNoAddr none sKernelSet rfl).1 rfl (by decide)

end LavaFastboot
